import Mathlib

/-!
Verification development for the le-belle-epoch front end.

The TypeScript sources under `src/src/app.ts`, `src/src/runtime/runtime-panel.ts`
and `src/src/runtime/types.ts` (plus the legacy page script in
`src/unnamed/part_000`) are shallowly embedded below.  Parsed JSON bodies are
modelled by the inductive `Json`; a possibly-undefined JavaScript value is an
`Option Json` (with `none` playing the role of `undefined`).  Each network
request is modelled by its observable outcome (`FetchOutcome`): a transport
failure (which also covers the 3000 ms abort timer firing), or a response with
an HTTP status and a body that either parsed as JSON or did not.
All functions are total, mirroring the fact that the page code catches every
exception along these paths.
-/

/-- A parsed JSON value, as produced by `response.json()`. -/
inductive Json where
  | null : Json
  | bool : Bool → Json
  | num : Int → Json
  | str : String → Json
  | arr : List Json → Json
  | obj : List (String × Json) → Json

/-- JavaScript truthiness of a JSON value (`null`, `false`, `0` and `""` are
falsy; every object and array is truthy). -/
def Json.truthy : Json → Bool
  | Json.null => false
  | Json.bool b => b
  | Json.num n => n != 0
  | Json.str s => s ≠ ""
  | Json.arr _ => true
  | Json.obj _ => true

/-- Property read `j.k` on a JSON value: the field of an object, `undefined`
(i.e. `none`) when absent or when the receiver is not an object.  (A plain
read on the JavaScript value `null` throws; call sites that can receive
`null` handle that case explicitly.) -/
def jsProp : Json → String → Option Json
  | Json.obj fields, k => (fields.find? (fun p => p.1 == k)).map (fun p => p.2)
  | _, _ => none

/-- Optional-chained property read `o?.k` on a possibly-undefined value:
`undefined` and `null` receivers short-circuit to `undefined`. -/
def jsPropOpt (o : Option Json) (k : String) : Option Json :=
  match o with
  | some (Json.obj fields) => (fields.find? (fun p => p.1 == k)).map (fun p => p.2)
  | _ => none

/-- Truthiness of a possibly-undefined value (`undefined` is falsy). -/
def optTruthy : Option Json → Bool
  | none => false
  | some v => v.truthy

/-- The JavaScript value is nullish (`null` or `undefined`). -/
def jsNullish : Option Json → Bool
  | none => true
  | some Json.null => true
  | some _ => false

/-- Nullish coalescing `a ?? b`. -/
def jsCoalesce (a b : Option Json) : Option Json :=
  if jsNullish a then b else a

/-- The pattern `x || null`: a falsy (or undefined) value collapses to `null`,
here rendered as `Json.null`. -/
def jsOrNull (o : Option Json) : Json :=
  match o with
  | some v => if v.truthy then v else Json.null
  | none => Json.null

/-- The pattern `x || null` combined with a later truthiness test on the
result: a falsy or undefined value becomes `none`. -/
def jsTruthyOrNone (o : Option Json) : Option Json :=
  match o with
  | some v => if v.truthy then some v else none
  | none => none

mutual
/-- JavaScript `String(v)` on a JSON value.  Arrays stringify via
`Array.prototype.join(",")`, objects to the generic object tag. -/
def jsString : Json → String
  | Json.null => "null"
  | Json.bool b => cond b "true" "false"
  | Json.num n => toString n
  | Json.str s => s
  | Json.arr xs => jsJoin "," xs
  | Json.obj _ => "[object Object]"

/-- `Array.prototype.join(sep)`: elements stringify with `String`, except that
`null` (and `undefined`) render as the empty string. -/
def jsJoin (sep : String) : List Json → String
  | [] => ""
  | x :: xs =>
    let head := match x with
      | Json.null => ""
      | v => jsString v
    match xs with
    | [] => head
    | _ :: _ => head ++ sep ++ jsJoin sep xs
end

/-- Template interpolation of a possibly-undefined value (JavaScript renders
`undefined` as the literal text). -/
def jsTemplate : Option Json → String
  | none => "undefined"
  | some v => jsString v

/-- The template pattern `x || dflt` rendered to a string. -/
def jsStrOr (v : Option Json) (dflt : String) : String :=
  match v with
  | some w => if w.truthy then jsString w else dflt
  | none => dflt

/-- Reads a field whose TypeScript type is `string` (possibly optional or
null).  Values outside that contract are treated as absent. -/
def jsStrProp (j : Json) (k : String) : Option String :=
  match jsProp j k with
  | some (Json.str s) => some s
  | _ => none

/-! ### Date formatting
`Date.prototype.toISOString` for a count of milliseconds since the Unix
epoch, via the standard civil-calendar conversion. -/

def isLeapYear (y : Int) : Bool :=
  (y % 4 == 0 && y % 100 != 0) || y % 400 == 0

def daysInMonth (y m : Int) : Int :=
  if m = 2 then (if isLeapYear y then 29 else 28)
  else if m = 4 ∨ m = 6 ∨ m = 9 ∨ m = 11 then 30
  else 31

/-- Days since 1970-01-01 to the proleptic Gregorian date (year, month, day). -/
def civilFromDays (z0 : Int) : Int × Int × Int :=
  let z := z0 + 719468
  let era : Int := Int.fdiv z 146097
  let doe : Int := z - era * 146097
  let yoe : Int := Int.fdiv (doe - Int.fdiv doe 1460 + Int.fdiv doe 36524 - Int.fdiv doe 146096) 365
  let y : Int := yoe + era * 400
  let doy : Int := doe - (365 * yoe + Int.fdiv yoe 4 - Int.fdiv yoe 100)
  let mp : Int := Int.fdiv (5 * doy + 2) 153
  let d : Int := doy - Int.fdiv (153 * mp + 2) 5 + 1
  let m : Int := if mp < 10 then mp + 3 else mp - 9
  (if m ≤ 2 then y + 1 else y, m, d)

/-- Proleptic Gregorian date to days since 1970-01-01. -/
def daysFromCivil (y m d : Int) : Int :=
  let y1 := if m ≤ 2 then y - 1 else y
  let era := Int.fdiv y1 400
  let yoe := y1 - era * 400
  let mp := if m > 2 then m - 3 else m + 9
  let doy := Int.fdiv (153 * mp + 2) 5 + d - 1
  let doe := yoe * 365 + Int.fdiv yoe 4 - Int.fdiv yoe 100 + doy
  era * 146097 + doe - 719468

def pad2 (n : Nat) : String :=
  if n < 10 then "0" ++ toString n else toString n

def pad3 (n : Nat) : String :=
  if n < 10 then "00" ++ toString n
  else if n < 100 then "0" ++ toString n
  else toString n

def pad4 (n : Nat) : String :=
  if n < 10 then "000" ++ toString n
  else if n < 100 then "00" ++ toString n
  else if n < 1000 then "0" ++ toString n
  else toString n

def pad6 (n : Nat) : String :=
  if n < 100000 then pad3 (n / 1000) ++ pad3 (n % 1000)
  else toString n

/-- The year component of `toISOString` (expanded-year form outside 0..9999). -/
def isoYearStr (y : Int) : String :=
  if 0 ≤ y ∧ y ≤ 9999 then pad4 y.toNat
  else if 9999 < y then "+" ++ pad6 y.toNat
  else "-" ++ pad6 (-y).toNat

/-- `new Date(ms).toISOString()` for an integral millisecond count. -/
def isoStringOfMs (ms : Int) : String :=
  let days := Int.fdiv ms 86400000
  let msod := (Int.fmod ms 86400000).toNat
  let c := civilFromDays days
  isoYearStr c.1 ++ "-" ++ pad2 c.2.1.toNat ++ "-" ++ pad2 c.2.2.toNat ++ "T" ++
    pad2 (msod / 3600000) ++ ":" ++ pad2 (msod / 60000 % 60) ++ ":" ++
    pad2 (msod / 1000 % 60) ++ "." ++ pad3 (msod % 1000) ++ "Z"

/-- `new Date(ms)` is a valid date exactly when the clipped time value is
within 8.64e15 ms of the epoch. -/
def jsDateValid (ms : Int) : Bool :=
  ms.natAbs ≤ 8640000000000000

def digitVal (c : Char) : Nat := c.toNat - 48

/-- `String.prototype.slice(0, n)` (by characters; the page strings are
ASCII). -/
def sliceTo (s : String) (n : Nat) : String :=
  String.mk (s.data.take n)

/-- `String.prototype.replace("T", " ")`: replace the first occurrence. -/
def replaceFirstT : List Char → List Char
  | [] => []
  | c :: cs => if c = 'T' then ' ' :: cs else c :: replaceFirstT cs

/-- Parse of a date-only ISO string `YYYY-MM-DD` (the calendar-string format
used by this page); `Date.parse` rejects out-of-range components of this
form.  Other `Date` input formats are not exercised by the page data and are
treated as unparseable. -/
def parseIsoDate (s : String) : Option (Int × Int × Int) :=
  match s.data with
  | [y1, y2, y3, y4, c1, m1, m2, c2, d1, d2] =>
    if c1 = '-' ∧ c2 = '-' ∧ y1.isDigit ∧ y2.isDigit ∧ y3.isDigit ∧ y4.isDigit ∧
        m1.isDigit ∧ m2.isDigit ∧ d1.isDigit ∧ d2.isDigit then
      let y : Int := Int.ofNat (digitVal y1 * 1000 + digitVal y2 * 100 + digitVal y3 * 10 + digitVal y4)
      let m : Int := Int.ofNat (digitVal m1 * 10 + digitVal m2)
      let d : Int := Int.ofNat (digitVal d1 * 10 + digitVal d2)
      if 1 ≤ m ∧ m ≤ 12 ∧ 1 ≤ d ∧ d ≤ daysInMonth y m then some (y, m, d) else none
    else none
  | _ => none

/-- `formatDate` from `src/src/app.ts`: empty/undefined input renders as the
placeholder dash, a parseable date renders as the `YYYY-MM-DD` slice of its
ISO string, and an unparseable string is returned verbatim. -/
def formatDate (value : Option String) : String :=
  match value with
  | none => "-"
  | some s =>
    if s = "" then "-"
    else
      match parseIsoDate s with
      | some (y, m, d) => sliceTo (isoStringOfMs (daysFromCivil y m d * 86400000)) 10
      | none => s

/-- `formatTimestamp` from `src/src/app.ts`.  A numeric value below
100000000000 is scaled from seconds to milliseconds; the result renders as
the first sixteen ISO characters with the `T` replaced by a space.  String
values delegate to `formatDate`; nullish values render as the dash.  (The
TypeScript signature restricts the argument to `string | number | null`;
other JSON values are stringified first here.) -/
def formatTimestamp (value : Option Json) : String :=
  match value with
  | none => "-"
  | some Json.null => "-"
  | some (Json.num t) =>
    let ms := if t < 100000000000 then t * 1000 else t
    if jsDateValid ms then String.mk (replaceFirstT (sliceTo (isoStringOfMs ms) 16).data) else "-"
  | some (Json.str s) => formatDate (some s)
  | some v => formatDate (some (jsString v))

/-! ### The probe layer -/

/-- Observable outcome of one `fetch`: a transport failure (network error or
the 3000 ms abort), or a response with an HTTP status code and a body that
either parsed as JSON or was malformed (`none`). -/
inductive FetchOutcome where
  | failure : FetchOutcome
  | response (status : Nat) (body : Option Json) : FetchOutcome

/-- `Response.ok`: the status is in the 2xx range. -/
def resOk (status : Nat) : Prop := 200 ≤ status ∧ status ≤ 299

instance (status : Nat) : Decidable (resOk status) := by
  unfold resOk; infer_instance

/-- The result shape of the JSON probe: `{ok: bool, data?: any}`.
`data = none` models an absent `data` field. -/
structure ProbeResult where
  ok : Bool
  data : Option Json

/-- `fetchJson` from `src/src/app.ts`: a 2xx response yields `ok: true` with
the parsed body as `data`, where a malformed body is replaced by `null` via
`res.json().catch(() => null)`; a non-2xx response or a transport failure
yields `{ok: false}`. -/
def fetchJson : FetchOutcome → ProbeResult
  | FetchOutcome.failure => { ok := false, data := none }
  | FetchOutcome.response status body =>
    if resOk status then { ok := true, data := some (body.getD Json.null) }
    else { ok := false, data := none }

/-- `fetchJson` from the legacy page script `src/unnamed/part_000`: identical
except that `await res.json()` is not guarded, so a malformed 2xx body throws
into the surrounding catch and yields `{ok: false}`. -/
def fetchJsonLegacy : FetchOutcome → ProbeResult
  | FetchOutcome.failure => { ok := false, data := none }
  | FetchOutcome.response status body =>
    if resOk status then
      match body with
      | some j => { ok := true, data := some j }
      | none => { ok := false, data := none }
    else { ok := false, data := none }

/-- A fetch attempt that delivered a parsed JSON body with a 2xx status. -/
def jsonSuccess : FetchOutcome → Option Json
  | FetchOutcome.response status (some b) => if resOk status then some b else none
  | _ => none

/-! ### The runtime panel (`src/src/runtime/runtime-panel.ts`) -/

/-- `trimModelId`: falsy input renders as the dash; identifiers of at most 52
characters pass through; longer ones keep the first 24 and last 18
characters around an ellipsis.  `none` models both `null` and `undefined`. -/
def trimModelId : Option String → String
  | none => "-"
  | some value =>
    if value = "" then "-"
    else if value.length ≤ 52 then value
    else String.mk (value.data.take 24) ++ "..." ++ String.mk (value.data.drop (value.data.length - 18))

/-- The canonical `ModelRuntimeStatus` record built by the diagnostics
reshape.  Fields of type `Option Json` may be `undefined`; `queue` and
`config` are always materialised (possibly as `null`) by the `|| null`
defaults. -/
structure ModelRuntimeStatus where
  status : Option Json
  loaded : Option Json
  model_id : Option Json
  model_path : Option Json
  model_type : Option Json
  queue : Json
  config : Json

/-- The reshape of a diagnostics payload performed in
`fetchModelRuntimeStatus`.  Reading `.status` on the JavaScript value `null`
throws (the exception is caught by the caller), hence the `none` case. -/
def reshapeDiagnostics : Json → Option ModelRuntimeStatus
  | Json.null => none
  | d =>
    some
      { status := jsProp d "status"
        loaded := jsProp d "handler_initialized"
        model_id := jsPropOpt (jsProp d "loaded_model") "model_id"
        model_path := jsPropOpt (jsProp d "loaded_model") "model_path"
        model_type := jsPropOpt (jsProp d "loaded_model") "model_type"
        queue := jsOrNull (jsProp d "queue")
        config := jsOrNull (jsProp d "config") }

/-- The value returned by `fetchModelRuntimeStatus`: `null`, the untouched
shape-A payload, or the reshaped shape-B record.  (A passthrough of the JSON
value `null` and `nullResult` denote the same JavaScript value.) -/
inductive RuntimeStatusResult where
  | nullResult : RuntimeStatusResult
  | passthrough (payload : Json) : RuntimeStatusResult
  | reshaped (status : ModelRuntimeStatus) : RuntimeStatusResult

/-- The second half of the fallback chain: `GET {llm}/internal/diagnostics`.
A non-2xx status throws, a malformed body throws, and a reshape of the JSON
value `null` throws; every throw is caught and yields `null`. -/
def diagnosticsFallback (diagRes : FetchOutcome) : RuntimeStatusResult :=
  match diagRes with
  | FetchOutcome.response status (some b) =>
    if resOk status then
      match reshapeDiagnostics b with
      | some shape => RuntimeStatusResult.reshaped shape
      | none => RuntimeStatusResult.nullResult
    else RuntimeStatusResult.nullResult
  | _ => RuntimeStatusResult.nullResult

/-- `fetchModelRuntimeStatus`: try `GET {llm}/internal/models/status`; a 2xx
response with a parseable body is returned unchanged; any other outcome
(404, other non-2xx, transport failure or timeout, malformed 2xx body) falls
through to the diagnostics endpoint.  `env` maps each requested URL to its
outcome. -/
def fetchModelRuntimeStatus (llmBaseUrl : String) (env : String → FetchOutcome) : RuntimeStatusResult :=
  if llmBaseUrl = "" then RuntimeStatusResult.nullResult
  else
    match env (llmBaseUrl ++ "/internal/models/status") with
    | FetchOutcome.response status (some b) =>
      if resOk status then RuntimeStatusResult.passthrough b
      else diagnosticsFallback (env (llmBaseUrl ++ "/internal/diagnostics"))
    | _ => diagnosticsFallback (env (llmBaseUrl ++ "/internal/diagnostics"))

/-! ### Retrieval-collection statistics (`extractRagStats` in `src/src/app.ts`) -/

/-- The rendering `count != null ? String(count) : "-"` of a possibly-missing
field value. -/
def displayNonNull : Option Json → String
  | none => "-"
  | some Json.null => "-"
  | some v => jsString v

/-- `extractRagStats`: unwrap an optional `{ok, data}` envelope (a record
without a boolean `ok` field is itself the data), then read the document
count from `num_documents ?? documents ?? count` and the timestamp from
`updated_at ?? generated_at ?? created_at`.  Returns `none` where the code
returns `null`. -/
def extractRagStats (payload : Option Json) : Option (String × String) :=
  match payload with
  | none => none
  | some p =>
    if ¬ p.truthy then none
    else
      let data : Option Json :=
        match jsProp p "ok" with
        | some (Json.bool b) => if b then jsProp p "data" else some Json.null
        | _ => some p
      match data with
      | none => none
      | some d =>
        if ¬ d.truthy then none
        else
          let count := jsCoalesce (jsProp d "num_documents") (jsCoalesce (jsProp d "documents") (jsProp d "count"))
          let updated := jsCoalesce (jsProp d "updated_at") (jsCoalesce (jsProp d "generated_at") (jsProp d "created_at"))
          some (displayNonNull count, formatTimestamp updated)

/-! ### The system table (`loadSystemRows` in `src/src/app.ts`) -/

/-- The three base URLs read from page metadata. -/
structure Config where
  ragBaseUrl : String
  llmBaseUrl : String
  audioBaseUrl : String

/-- The hardcoded local defaults used when the metadata tags are absent. -/
def defaultConfig : Config :=
  { ragBaseUrl := "http://127.0.0.1:8011"
    llmBaseUrl := "http://127.0.0.1:8080"
    audioBaseUrl := "http://127.0.0.1:7001" }

structure SystemRow where
  resource : String
  type : String
  status : String
  docs : String
  updated : String
  endpoint : String

def toHexDigit (n : Nat) : Char :=
  if n < 10 then Char.ofNat (48 + n) else Char.ofNat (55 + n)

/-- A character `encodeURIComponent` leaves unescaped (alphanumerics and
the unreserved marks, including the apostrophe, code point 39). -/
def isUnreservedUriChar (c : Char) : Bool :=
  c.isAlphanum || c == '-' || c == '_' || c == '.' || c == '!' || c == '~' ||
    c == '*' || c == '(' || c == ')' || c.toNat == 39

/-- `encodeURIComponent` (ASCII fragment; multi-byte UTF-8 expansion is not
modelled — the call sites pass the fixed lowercase collection names). -/
def encodeURIComponent (s : String) : String :=
  String.mk (s.data.foldr (fun c acc =>
    if isUnreservedUriChar c then c :: acc
    else '%' :: toHexDigit (c.toNat / 16 % 16) :: toHexDigit (c.toNat % 16) :: acc) [])

/-- The URL of the aggregate ecosystem endpoint. -/
def ecoUrl (cfg : Config) : String :=
  cfg.llmBaseUrl ++ "/internal/ecosystem/status?collection=anthology"

/-- `addServiceRow`: status is `ok`/`down` by the truthiness of the `ok`
field when the service payload is present, `unknown` otherwise; the endpoint
is `service?.base_url || fallbackBase || "-"`. -/
def addServiceRow (label : String) (service : Option Json) (fallbackBase docs updated : String) : SystemRow :=
  { resource := label
    type := "service"
    status := match service with
      | some s => if optTruthy (jsProp s "ok") then "ok" else "down"
      | none => "unknown"
    docs := docs
    updated := updated
    endpoint := jsStrOr (jsPropOpt service "base_url") (if fallbackBase ≠ "" then fallbackBase else "-") }

/-- The docs column of the `mlx-llm` row: the trimmed model id when
`model_id` is truthy, else `loaded`/`unloaded` by the truthiness of
`loaded`.  (`model_id` is typed `string | null`; a string is truthy exactly
when non-empty.) -/
def llmDocsOf (s : Json) : String :=
  match jsProp s "model_id" with
  | some (Json.str m) =>
    if m ≠ "" then trimModelId (some m)
    else if optTruthy (jsProp s "loaded") then "loaded" else "unloaded"
  | _ => if optTruthy (jsProp s "loaded") then "loaded" else "unloaded"

/-- The service rows built from a truthy `ecosystem.services` payload, in
source order: llm, rag, audio, then vlm and mcp only when present. -/
def ecosystemServiceRows (cfg : Config) (ecosystem : Json) : List SystemRow :=
  let updated := formatTimestamp (jsProp ecosystem "generated_at")
  let services := jsProp ecosystem "services"
  let llmService := jsTruthyOrNone (jsPropOpt services "llm")
  let llmDocs := match llmService with
    | some s => llmDocsOf s
    | none => "-"
  let ragService := jsTruthyOrNone (jsPropOpt services "rag")
  let ragDocs := match jsPropOpt ragService "embedding_model" with
    | some (Json.str m) => if m ≠ "" then trimModelId (some m) else "-"
    | _ => "-"
  [addServiceRow "mlx-llm" llmService cfg.llmBaseUrl llmDocs updated,
   addServiceRow "mlx-rag" ragService cfg.ragBaseUrl ragDocs updated,
   addServiceRow "mlx-audio" (jsTruthyOrNone (jsPropOpt services "audio")) cfg.audioBaseUrl "-" updated]
  ++ (match jsTruthyOrNone (jsPropOpt services "vlm") with
      | some v => [addServiceRow "mlx-vlm" (some v) "-" "-" updated]
      | none => [])
  ++ (match jsTruthyOrNone (jsPropOpt services "mcp") with
      | some v => [addServiceRow "mlx-mcp" (some v) "-" "-" updated]
      | none => [])

/-- The degraded path: one `GET {base}/health` probe per service, rows in
the fixed source order regardless of each probe outcome.  The second
component is the list of requested URLs. -/
def degradedServiceRows (cfg : Config) (env : String → FetchOutcome) : List SystemRow × List String :=
  let entries := [("mlx-llm", cfg.llmBaseUrl), ("mlx-rag", cfg.ragBaseUrl), ("mlx-audio", cfg.audioBaseUrl)]
  (entries.map (fun e =>
      { resource := e.1
        type := "service"
        status := if (fetchJson (env (e.2 ++ "/health"))).ok then "ok" else "down"
        docs := "-"
        updated := "-"
        endpoint := e.2 }),
   entries.map (fun e => e.2 ++ "/health"))

/-- One collection row: statistics come from the ecosystem payload when its
`services.rag.stats` is truthy and its `collection` strictly equals this
collection name, otherwise from one `GET {rag}/rag_stats?collection=...`
probe.  The second component is the list of requested URLs. -/
def collectionRow (cfg : Config) (env : String → FetchOutcome) (ecosystem : Option Json)
    (collection : String) : SystemRow × List String :=
  let ecoStats := jsPropOpt (jsPropOpt (jsPropOpt ecosystem "services") "rag") "stats"
  let collMatches := match jsPropOpt ecosystem "collection" with
    | some (Json.str c) => c == collection
    | _ => false
  let fetched :=
    if optTruthy ecoStats && collMatches then (ecoStats, ([] : List String))
    else
      let url := cfg.ragBaseUrl ++ "/rag_stats?collection=" ++ encodeURIComponent collection
      let statsResponse := fetchJson (env url)
      (if statsResponse.ok then
        some (Json.obj (("ok", Json.bool true) ::
          (match statsResponse.data with
           | some d => [("data", d)]
           | none => [])))
      else none, [url])
  let parsedStats := extractRagStats fetched.1
  ({ resource := "rag:" ++ collection
     type := "collection"
     status := if parsedStats.isSome then "ok" else "down"
     docs := match parsedStats with
       | some p => p.1
       | none => "-"
     updated := match parsedStats with
       | some p => p.2
       | none => "-"
     endpoint := cfg.ragBaseUrl ++ "/rag_stats" }, fetched.2)

/-- `loadSystemRows`: probe the aggregate ecosystem endpoint (when an llm
base URL is configured); build service rows from it when it delivered a
truthy `services`, else degrade to per-service health probes; then append
one row per collection in the fixed order anthology, blog, projects.
Returns the rows and the list of requested URLs, both in request order. -/
def loadSystemRows (cfg : Config) (env : String → FetchOutcome) : List SystemRow × List String :=
  let ecoReq := if cfg.llmBaseUrl ≠ "" then [ecoUrl cfg] else []
  let ecosystem : Option Json :=
    if cfg.llmBaseUrl ≠ "" then
      let r := fetchJson (env (ecoUrl cfg))
      if r.ok && optTruthy r.data then r.data else none
    else none
  let serviceStep :=
    if optTruthy (jsPropOpt ecosystem "services") then
      (ecosystemServiceRows cfg (ecosystem.getD Json.null), ([] : List String))
    else degradedServiceRows cfg env
  let collResults := ["anthology", "blog", "projects"].map (collectionRow cfg env ecosystem)
  (serviceStep.1 ++ collResults.map Prod.fst,
   ecoReq ++ serviceStep.2 ++ (collResults.map Prod.snd).flatten)

/-! ### Posts (`loadPosts`, `fallbackPosts`, `renderPosts` in `src/src/app.ts`) -/

/-- The embedded fallback snapshot, verbatim from the source. -/
def fallbackPosts : Json :=
  Json.obj
    [("generated_at", Json.str "2025-12-28T00:00:00Z"),
     ("posts", Json.arr
       [Json.obj
         [("id", Json.str "anthology-brief-001"),
          ("title", Json.str "Anthology brief: what changed this week"),
          ("summary", Json.str "Snapshot of new documents, system shifts, and active experiments."),
          ("tags", Json.arr [Json.str "anthology", Json.str "summary"]),
          ("project", Json.str "Anthology"),
          ("voice_id", Json.str "kokoro_default"),
          ("published_at", Json.str "2025-12-28")],
        Json.obj
         [("id", Json.str "voice-notes-002"),
          ("title", Json.str "Voice notes: RAG maintenance signals"),
          ("summary", Json.str "Covers collection health, sync gaps, and query thresholds."),
          ("tags", Json.arr [Json.str "rag", Json.str "maintenance"]),
          ("project", Json.str "mlx-services"),
          ("voice_id", Json.str "kokoro_default"),
          ("published_at", Json.str "2025-12-27")],
        Json.obj
         [("id", Json.str "generator-003"),
          ("title", Json.str "Generator pipeline: markdown to posts.json"),
          ("summary", Json.str "Outline of the static build flow and runtime overlays."),
          ("tags", Json.arr [Json.str "blog", Json.str "pipeline"]),
          ("project", Json.str "le-belle-epoch"),
          ("voice_id", Json.str "kokoro_default"),
          ("published_at", Json.str "2025-12-26")],
        Json.obj
         [("id", Json.str "systems-004"),
          ("title", Json.str "System table: mlx-services alignment"),
          ("summary", Json.str "Status boards for llm, rag, audio, and mcp endpoints."),
          ("tags", Json.arr [Json.str "mlx", Json.str "status"]),
          ("project", Json.str "mlx-services"),
          ("voice_id", Json.str "kokoro_default"),
          ("published_at", Json.str "2025-12-25")]])]

/-- The body carries a posts array (`data.posts` is truthy and an array;
every array is truthy).  A `null` body throws on the `.posts` read, which
the caller catches; `jsProp` already sends that case to the fallback. -/
def hasPostsArray (j : Json) : Bool :=
  match jsProp j "posts" with
  | some (Json.arr _) => true
  | _ => false

/-- `loadPosts`: any transport failure, non-2xx status, malformed body, or
body without a posts array yields the embedded fallback snapshot; otherwise
the payload is returned as parsed. -/
def loadPosts (o : FetchOutcome) : Json :=
  match o with
  | FetchOutcome.failure => fallbackPosts
  | FetchOutcome.response status body =>
    if resOk status then
      match body with
      | some j => if hasPostsArray j then j else fallbackPosts
      | none => fallbackPosts
    else fallbackPosts

/-- The posts array of a payload, as read by `bootstrap` via
`postsPayload.posts`. -/
def postsOf (payload : Json) : List Json :=
  match jsProp payload "posts" with
  | some (Json.arr ps) => ps
  | _ => []

/-- The content of one rendered post card. -/
structure PostCard where
  project : String
  published : String
  tags : String
  title : String
  summary : String
  voice : String

/-- The card built for one post by `renderPosts` (`tags` is typed
`string[]`; a missing or non-array value would throw in the source and is
rendered as the untagged label here). -/
def renderPostCard (post : Json) : PostCard :=
  { project := jsStrOr (jsProp post "project") "Anthology"
    published := formatDate (jsStrProp post "published_at")
    tags := match jsProp post "tags" with
      | some (Json.arr ts) => if ts.length ≠ 0 then jsJoin " " ts else "untagged"
      | _ => "untagged"
    title := jsTemplate (jsProp post "title")
    summary := jsTemplate (jsProp post "summary")
    voice := jsStrOr (jsProp post "voice_id") "kokoro_default" }

/-- `renderPosts` appends one card per post, in array order. -/
def renderPosts (posts : List Json) : List PostCard :=
  posts.map renderPostCard

/-! ### Helper lemmas -/

/-- An over-long identifier abbreviates to exactly 45 characters. -/
theorem trimModelId_length_long (s : String) (h : 52 < s.length) :
    (trimModelId (some s)).length = 45 := by
  have hs : s ≠ "" := by
    intro he
    subst he
    simp [String.length] at h
  have hn : s.data.length = s.length := rfl
  simp only [trimModelId, if_neg hs, if_neg (by omega : ¬ s.length ≤ 52)]
  simp only [String.length_append]
  have h1 : (String.mk (s.data.take 24)).length = 24 := by
    show (s.data.take 24).length = 24
    rw [List.length_take]
    omega
  have h2 : (String.mk (s.data.drop (s.data.length - 18))).length = 18 := by
    show (s.data.drop (s.data.length - 18)).length = 18
    rw [List.length_drop]
    omega
  rw [h1, h2]
  decide

theorem jsPropOpt_some (j : Json) (k : String) : jsPropOpt (some j) k = jsProp j k := by
  cases j <;> rfl

/-! ### C1 -/

/-- C1 counterexample: on a 2xx response with a malformed (non-JSON) body,
the probe in `src/src/app.ts` returns `{ok: true, data: null}` (via
`res.json().catch(() => null)`), not `{ok: false}` as the claim states. -/
theorem fetchJson_malformed_body_cex :
    fetchJson (FetchOutcome.response 200 none) = { ok := true, data := some Json.null } ∧
    (fetchJson (FetchOutcome.response 200 none)).ok ≠ false := by
  constructor
  · simp [fetchJson, resOk]
  · simp [fetchJson, resOk]

/-- C1 (amended): the probe never raises; a transport failure or a non-2xx
status yields `{ok: false}` in both probe implementations; a 2xx response
with a valid JSON body yields `{ok: true}` carrying that body; a 2xx
response with a malformed body yields `{ok: true, data: null}` in the main
page probe (`src/src/app.ts`) and `{ok: false}` in the legacy page probe
(`src/unnamed/part_000`). -/
theorem fetchJson_probe_contract (status : Nat) (j : Json) :
    fetchJson FetchOutcome.failure = { ok := false, data := none } ∧
    fetchJsonLegacy FetchOutcome.failure = { ok := false, data := none } ∧
    (¬ resOk status →
      fetchJson (FetchOutcome.response status (some j)) = { ok := false, data := none } ∧
      fetchJson (FetchOutcome.response status none) = { ok := false, data := none } ∧
      fetchJsonLegacy (FetchOutcome.response status (some j)) = { ok := false, data := none } ∧
      fetchJsonLegacy (FetchOutcome.response status none) = { ok := false, data := none }) ∧
    (resOk status →
      fetchJson (FetchOutcome.response status (some j)) = { ok := true, data := some j } ∧
      fetchJson (FetchOutcome.response status none) = { ok := true, data := some Json.null } ∧
      fetchJsonLegacy (FetchOutcome.response status (some j)) = { ok := true, data := some j } ∧
      fetchJsonLegacy (FetchOutcome.response status none) = { ok := false, data := none }) := by
  refine ⟨rfl, rfl, fun h => ?_, fun h => ?_⟩ <;>
    simp [fetchJson, fetchJsonLegacy, h, Option.getD]

/-- Witness for C1: the contract evaluated at a 500 and at a 200 response. -/
theorem fetchJson_probe_contract_witness :
    fetchJson (FetchOutcome.response 500 (some (Json.num 1))) = { ok := false, data := none } ∧
    fetchJson (FetchOutcome.response 200 (some (Json.num 1))) = { ok := true, data := some (Json.num 1) } ∧
    fetchJsonLegacy (FetchOutcome.response 200 none) = { ok := false, data := none } :=
  ⟨((fetchJson_probe_contract 500 (Json.num 1)).2.2.1 (by decide)).1,
   ((fetchJson_probe_contract 200 (Json.num 1)).2.2.2 (by decide)).1,
   ((fetchJson_probe_contract 200 (Json.num 1)).2.2.2 (by decide)).2.2.2⟩

/-! ### C5 -/

/-- Modelled from the spec wording of C5: format a value that is already a
count of milliseconds since the epoch. -/
def formatMsTimestamp (ms : Int) : String :=
  if jsDateValid ms then String.mk (replaceFirstT (sliceTo (isoStringOfMs ms) 16).data) else "-"

/-- C5: a numeric timestamp below 100000000000 is formatted as `t * 1000`
milliseconds, any other numeric timestamp as `t` milliseconds directly; the
two example values 1700000000 (seconds path) and 1700000000000
(milliseconds path) render the same calendar date and time. -/
theorem formatTimestamp_seconds_threshold (t : Int) :
    formatTimestamp (some (Json.num t)) =
      formatMsTimestamp (if t < 100000000000 then t * 1000 else t) ∧
    formatTimestamp (some (Json.num 1700000000)) = "2023-11-14 22:13" ∧
    formatTimestamp (some (Json.num 1700000000000)) = "2023-11-14 22:13" := by
  refine ⟨rfl, ?_, ?_⟩ <;> rfl

/-! ### C6 -/

/-- C6 counterexample: the empty string has length at most 52, yet
`trimModelId` maps it to the dash placeholder, not to itself. -/
theorem trimModelId_empty_cex :
    "".length ≤ 52 ∧ trimModelId (some "") = "-" ∧ trimModelId (some "") ≠ "" :=
  ⟨by decide, rfl, by decide⟩

/-- C6 (amended): for every non-empty identifier of length at most 52,
`trimModelId` is the identity; for length above 52 it returns the first 24
characters, an ellipsis, and the last 18 characters, a string of length 45.
(The empty string, though of length at most 52, maps to the dash.) -/
theorem trimModelId_abbreviation (s : String) :
    (s ≠ "" → s.length ≤ 52 → trimModelId (some s) = s) ∧
    (52 < s.length →
      trimModelId (some s) =
        String.mk (s.data.take 24) ++ "..." ++ String.mk (s.data.drop (s.data.length - 18)) ∧
      (trimModelId (some s)).length = 45) := by
  constructor
  · intro h1 h2
    simp [trimModelId, h1, h2]
  · intro h
    refine ⟨?_, trimModelId_length_long s h⟩
    have hs : s ≠ "" := by
      intro he
      subst he
      simp [String.length] at h
    simp [trimModelId, hs, (show ¬ s.length ≤ 52 by omega)]

/-- Witness for C6: identity on a short identifier, 45-character abbreviation
of a 53-character identifier. -/
theorem trimModelId_abbreviation_witness :
    trimModelId (some "abc") = "abc" ∧
    (trimModelId (some (String.mk (List.replicate 53 'a')))).length = 45 :=
  ⟨(trimModelId_abbreviation "abc").1 (by decide) (by decide),
   ((trimModelId_abbreviation (String.mk (List.replicate 53 'a'))).2 (by decide)).2⟩

/-! ### C10 -/

/-- C10: `trimModelId` always returns a non-empty string of length at most
52; `null`/`undefined` (here `none`) and the empty string map to the dash,
so abbreviation is in particular not the identity on the empty string. -/
theorem trimModelId_total_bounds :
    (∀ v : Option String, trimModelId v ≠ "" ∧ (trimModelId v).length ≤ 52) ∧
    trimModelId none = "-" ∧ trimModelId (some "") = "-" ∧ trimModelId (some "") ≠ "" := by
  refine ⟨?_, rfl, rfl, by decide⟩
  intro v
  match v with
  | none => exact ⟨by decide, by decide⟩
  | some s =>
    by_cases he : s = ""
    · subst he
      exact ⟨by decide, by decide⟩
    · by_cases hl : s.length ≤ 52
      · have ht : trimModelId (some s) = s := by simp [trimModelId, he, hl]
        rw [ht]
        exact ⟨he, hl⟩
      · have h45 := trimModelId_length_long s (by omega)
        constructor
        · intro h0
          rw [h0] at h45
          simp [String.length] at h45
        · omega

/-! ### C3 -/

/-- The diagnostics-shape test vector of the claim. -/
def diagExample : Json :=
  Json.obj
    [("status", Json.str "ok"),
     ("handler_initialized", Json.bool true),
     ("loaded_model", Json.obj [("model_id", Json.str "m1"), ("model_type", Json.str "chat")]),
     ("queue", Json.null),
     ("config", Json.null)]

/-- The canonical record the claim expects for `diagExample` (no
`model_path`, i.e. that field is `undefined`). -/
def diagExampleShaped : ModelRuntimeStatus :=
  { status := some (Json.str "ok")
    loaded := some (Json.bool true)
    model_id := some (Json.str "m1")
    model_path := none
    model_type := some (Json.str "chat")
    queue := Json.null
    config := Json.null }

/-- C3: the diagnostics reshape renames `handler_initialized` to `loaded`,
lifts the `loaded_model` fields to the top level, and passes `queue` and
`config` through when truthy, defaulting them to `null`; on the test vector
`{status:"ok", handler_initialized:true, loaded_model:{model_id:"m1",
model_type:"chat"}, queue:null, config:null}` it yields `{status:"ok",
loaded:true, model_id:"m1", model_type:"chat", queue:null, config:null}`. -/
theorem reshapeDiagnostics_renames :
    (∀ d shape, reshapeDiagnostics d = some shape →
      shape.status = jsProp d "status" ∧
      shape.loaded = jsProp d "handler_initialized" ∧
      shape.model_id = jsPropOpt (jsProp d "loaded_model") "model_id" ∧
      shape.model_path = jsPropOpt (jsProp d "loaded_model") "model_path" ∧
      shape.model_type = jsPropOpt (jsProp d "loaded_model") "model_type" ∧
      shape.queue = jsOrNull (jsProp d "queue") ∧
      shape.config = jsOrNull (jsProp d "config")) ∧
    reshapeDiagnostics diagExample = some diagExampleShaped := by
  constructor
  · intro d shape h
    cases d <;> simp [reshapeDiagnostics] at h <;> subst h <;>
      exact ⟨rfl, rfl, rfl, rfl, rfl, rfl, rfl⟩
  · rfl

/-- Witness for C3: the field equations evaluated on the test vector. -/
theorem reshapeDiagnostics_renames_witness :
    diagExampleShaped.loaded = jsProp diagExample "handler_initialized" ∧
    diagExampleShaped.model_id = jsPropOpt (jsProp diagExample "loaded_model") "model_id" :=
  ⟨(reshapeDiagnostics_renames.1 diagExample diagExampleShaped reshapeDiagnostics_renames.2).2.1,
   (reshapeDiagnostics_renames.1 diagExample diagExampleShaped reshapeDiagnostics_renames.2).2.2.1⟩

/-! ### C2 -/

/-- Success analysis of the diagnostics fallback leg. -/
theorem diagnosticsFallback_spec (d : FetchOutcome) :
    (∀ b shape, jsonSuccess d = some b → reshapeDiagnostics b = some shape →
      diagnosticsFallback d = RuntimeStatusResult.reshaped shape) ∧
    ((jsonSuccess d = none ∨ jsonSuccess d = some Json.null) →
      diagnosticsFallback d = RuntimeStatusResult.nullResult) := by
  rcases d with _ | ⟨s, b⟩
  · exact ⟨fun b shape hb => by simp [jsonSuccess] at hb, fun _ => rfl⟩
  · rcases b with _ | j
    · exact ⟨fun b shape hb => by simp [jsonSuccess] at hb, fun _ => rfl⟩
    · by_cases hs : resOk s
      · constructor
        · intro b shape hb hre
          simp [jsonSuccess, hs] at hb
          subst hb
          simp [diagnosticsFallback, hs, hre]
        · intro h
          rcases h with h | h
          · simp [jsonSuccess, hs] at h
          · simp [jsonSuccess, hs] at h
            subst h
            simp [diagnosticsFallback, hs, reshapeDiagnostics]
      · constructor
        · intro b shape hb _
          simp [jsonSuccess, hs] at hb
        · intro _
          simp [diagnosticsFallback, hs]

/-- C2: with a non-empty base URL, a 2xx JSON reply from
`{llm}/internal/models/status` is passed through unchanged; on any failure
of the primary (404, other non-2xx, transport failure, malformed body) the
chain falls through to `{llm}/internal/diagnostics`, whose 2xx JSON reply is
reshaped; if the diagnostics attempt fails as well (including the reshape
throwing on a JSON `null` body) the result is `null`, and no case raises. -/
theorem fetchModelRuntimeStatus_fallback_chain (url : String) (env : String → FetchOutcome)
    (hurl : url ≠ "") :
    (∀ b, jsonSuccess (env (url ++ "/internal/models/status")) = some b →
      fetchModelRuntimeStatus url env = RuntimeStatusResult.passthrough b) ∧
    (jsonSuccess (env (url ++ "/internal/models/status")) = none →
      (∀ b shape, jsonSuccess (env (url ++ "/internal/diagnostics")) = some b →
        reshapeDiagnostics b = some shape →
        fetchModelRuntimeStatus url env = RuntimeStatusResult.reshaped shape) ∧
      ((jsonSuccess (env (url ++ "/internal/diagnostics")) = none ∨
        jsonSuccess (env (url ++ "/internal/diagnostics")) = some Json.null) →
        fetchModelRuntimeStatus url env = RuntimeStatusResult.nullResult)) := by
  constructor
  · intro b hb
    cases hp : env (url ++ "/internal/models/status") with
    | failure => rw [hp] at hb; simp [jsonSuccess] at hb
    | response s body =>
      rcases body with _ | j
      · rw [hp] at hb; simp [jsonSuccess] at hb
      · rw [hp] at hb
        by_cases hs : resOk s
        · simp [jsonSuccess, hs] at hb
          subst hb
          simp [fetchModelRuntimeStatus, hurl, hp, hs]
        · simp [jsonSuccess, hs] at hb
  · intro hnone
    have hfb : fetchModelRuntimeStatus url env =
        diagnosticsFallback (env (url ++ "/internal/diagnostics")) := by
      cases hp : env (url ++ "/internal/models/status") with
      | failure => simp [fetchModelRuntimeStatus, hurl, hp]
      | response s body =>
        rcases body with _ | j
        · simp [fetchModelRuntimeStatus, hurl, hp]
        · rw [hp] at hnone
          by_cases hs : resOk s
          · simp [jsonSuccess, hs] at hnone
          · simp [fetchModelRuntimeStatus, hurl, hp, hs]
    rw [hfb]
    exact diagnosticsFallback_spec (env (url ++ "/internal/diagnostics"))

/-- The environment of the C2 witness: the primary endpoint answers 404, the
diagnostics endpoint delivers the C3 test vector. -/
def c2Env : String → FetchOutcome := fun u =>
  if u = "http://llm/internal/models/status" then FetchOutcome.response 404 (some Json.null)
  else if u = "http://llm/internal/diagnostics" then FetchOutcome.response 200 (some diagExample)
  else FetchOutcome.failure

/-- Witness for C2: a 404 primary falls through to diagnostics and yields
the reshaped record. -/
theorem fetchModelRuntimeStatus_fallback_chain_witness :
    fetchModelRuntimeStatus "http://llm" c2Env = RuntimeStatusResult.reshaped diagExampleShaped :=
  ((fetchModelRuntimeStatus_fallback_chain "http://llm" c2Env (by decide)).2 rfl).1
    diagExample diagExampleShaped rfl rfl

/-! ### C4 -/

/-- Modelled from the claim wording of C4: the value of the first field, in
priority order, that is present with a non-null value. -/
def firstPresentOpt : List (Option Json) → Option Json
  | [] => none
  | none :: rest => firstPresentOpt rest
  | some Json.null :: rest => firstPresentOpt rest
  | some v :: _ => some v

theorem firstPresentOpt_cons (o : Option Json) (rest : List (Option Json)) :
    firstPresentOpt (o :: rest) = if jsNullish o then firstPresentOpt rest else o := by
  rcases o with _ | v
  · rfl
  · cases v <;> rfl

/-- Any rendering that identifies `null` with `undefined` cannot tell a
nullish-coalescing chain from the first present non-null candidate. -/
theorem chain_firstPresent (f : Option Json → String) (hnull : f (some Json.null) = f none)
    (a b c : Option Json) :
    f (jsCoalesce a (jsCoalesce b c)) = f (firstPresentOpt [a, b, c]) := by
  have hn : ∀ o : Option Json, jsNullish o = true → f o = f none := by
    intro o h
    rcases o with _ | v
    · rfl
    · cases v with
      | null => exact hnull
      | bool x => simp [jsNullish] at h
      | num x => simp [jsNullish] at h
      | str x => simp [jsNullish] at h
      | arr x => simp [jsNullish] at h
      | obj x => simp [jsNullish] at h
  simp only [jsCoalesce, firstPresentOpt_cons, firstPresentOpt]
  by_cases ha : jsNullish a
  · by_cases hb : jsNullish b
    · by_cases hc : jsNullish c
      · simp [ha, hb, hc, hn c hc]
      · simp [ha, hb, hc]
    · simp [ha, hb]
  · simp [ha]

/-- C4: on a statistics record `d` delivered through the `{ok: true, data}`
envelope, the document count comes from the first present non-null field
among `num_documents`, `documents`, `count` and the timestamp from the first
present non-null field among `updated_at`, `generated_at`, `created_at`;
absence of all candidates yields the dash placeholder; the test vector
`{documents: 42, created_at: "2025-01-01"}` extracts `("42", "2025-01-01")`. -/
theorem extractRagStats_field_priority (d : Json) (hd : d.truthy = true) :
    extractRagStats (some (Json.obj [("ok", Json.bool true), ("data", d)])) =
      some (displayNonNull (firstPresentOpt
              [jsProp d "num_documents", jsProp d "documents", jsProp d "count"]),
            formatTimestamp (firstPresentOpt
              [jsProp d "updated_at", jsProp d "generated_at", jsProp d "created_at"])) ∧
    extractRagStats (some (Json.obj [("ok", Json.bool true),
        ("data", Json.obj [("documents", Json.num 42), ("created_at", Json.str "2025-01-01")])])) =
      some ("42", "2025-01-01") ∧
    extractRagStats (some (Json.obj [("ok", Json.bool true),
        ("data", Json.obj [("other", Json.num 7)])])) =
      some ("-", "-") := by
  refine ⟨?_, rfl, rfl⟩
  have h1 := chain_firstPresent displayNonNull rfl
    (jsProp d "num_documents") (jsProp d "documents") (jsProp d "count")
  have h2 := chain_firstPresent formatTimestamp rfl
    (jsProp d "updated_at") (jsProp d "generated_at") (jsProp d "created_at")
  have hred : extractRagStats (some (Json.obj [("ok", Json.bool true), ("data", d)])) =
      if ¬ d.truthy then none
      else some (displayNonNull (jsCoalesce (jsProp d "num_documents")
                   (jsCoalesce (jsProp d "documents") (jsProp d "count"))),
                 formatTimestamp (jsCoalesce (jsProp d "updated_at")
                   (jsCoalesce (jsProp d "generated_at") (jsProp d "created_at")))) := rfl
  rw [hred, if_neg (by simp [hd]), h1, h2]

/-- Witness for C4: the priority statement evaluated on the test vector. -/
theorem extractRagStats_field_priority_witness :
    extractRagStats (some (Json.obj [("ok", Json.bool true),
        ("data", Json.obj [("documents", Json.num 42), ("created_at", Json.str "2025-01-01")])])) =
      some ("42", "2025-01-01") :=
  (extractRagStats_field_priority
    (Json.obj [("documents", Json.num 42), ("created_at", Json.str "2025-01-01")]) rfl).2.1

/-! ### C8 -/

/-- C8: on any failure of the posts request — transport failure, non-2xx
status, malformed body, or a body whose `posts` field is missing or not an
array — `loadPosts` returns the embedded fallback snapshot, whose four posts
appear in their listed order ending with `systems-004`, and the rendered
post list is those four posts in that order. -/
theorem loadPosts_fallback_order (o : FetchOutcome)
    (h : ∀ j, jsonSuccess o = some j → hasPostsArray j = false) :
    loadPosts o = fallbackPosts ∧
    (postsOf fallbackPosts).map (fun p => jsTemplate (jsProp p "id")) =
      ["anthology-brief-001", "voice-notes-002", "generator-003", "systems-004"] ∧
    (renderPosts (postsOf (loadPosts o))).map PostCard.title =
      ["Anthology brief: what changed this week",
       "Voice notes: RAG maintenance signals",
       "Generator pipeline: markdown to posts.json",
       "System table: mlx-services alignment"] := by
  have h1 : loadPosts o = fallbackPosts := by
    rcases o with _ | ⟨s, b⟩
    · rfl
    · by_cases hs : resOk s
      · rcases b with _ | j
        · simp [loadPosts, hs]
        · have hp := h j (by simp [jsonSuccess, hs])
          simp [loadPosts, hs, hp]
      · simp [loadPosts, hs]
  refine ⟨h1, rfl, ?_⟩
  rw [h1]
  rfl

/-- Witness for C8: the fallback on a dropped connection. -/
theorem loadPosts_fallback_order_witness :
    loadPosts FetchOutcome.failure = fallbackPosts :=
  (loadPosts_fallback_order FetchOutcome.failure (fun j hj => by simp [jsonSuccess] at hj)).1

/-! ### C9 -/

/-- C9: when the aggregate ecosystem probe fails, `loadSystemRows` degrades
to one `/health` probe per service and one `rag_stats` probe per collection
of the fixed set anthology, blog, projects, and the returned rows are
always, regardless of the individual probe outcomes, the three service rows
mlx-llm, mlx-rag, mlx-audio followed by the three collection rows
rag:anthology, rag:blog, rag:projects. -/
theorem loadSystemRows_degraded_order (cfg : Config) (env : String → FetchOutcome)
    (hbase : cfg.llmBaseUrl ≠ "")
    (hfail : (fetchJson (env (ecoUrl cfg))).ok = false) :
    (loadSystemRows cfg env).1.map SystemRow.resource =
      ["mlx-llm", "mlx-rag", "mlx-audio", "rag:anthology", "rag:blog", "rag:projects"] ∧
    (loadSystemRows cfg env).1.map SystemRow.type =
      ["service", "service", "service", "collection", "collection", "collection"] ∧
    (loadSystemRows cfg env).2 =
      [ecoUrl cfg,
       cfg.llmBaseUrl ++ "/health", cfg.ragBaseUrl ++ "/health", cfg.audioBaseUrl ++ "/health",
       cfg.ragBaseUrl ++ "/rag_stats?collection=anthology",
       cfg.ragBaseUrl ++ "/rag_stats?collection=blog",
       cfg.ragBaseUrl ++ "/rag_stats?collection=projects"] := by
  have hE1 : encodeURIComponent "anthology" = "anthology" := rfl
  have hE2 : encodeURIComponent "blog" = "blog" := rfl
  have hE3 : encodeURIComponent "projects" = "projects" := rfl
  have hA1 : "/rag_stats?collection=" ++ "anthology" = "/rag_stats?collection=anthology" := rfl
  have hA2 : "/rag_stats?collection=" ++ "blog" = "/rag_stats?collection=blog" := rfl
  have hA3 : "/rag_stats?collection=" ++ "projects" = "/rag_stats?collection=projects" := rfl
  refine ⟨?_, ?_, ?_⟩ <;>
    simp [loadSystemRows, hbase, hfail, degradedServiceRows, collectionRow,
      jsPropOpt, optTruthy, hE1, hE2, hE3, String.append_assoc, hA1, hA2, hA3]

/-- Witness for C9: every probe dropped. -/
theorem loadSystemRows_degraded_order_witness :
    (loadSystemRows defaultConfig (fun _ => FetchOutcome.failure)).1.map SystemRow.resource =
      ["mlx-llm", "mlx-rag", "mlx-audio", "rag:anthology", "rag:blog", "rag:projects"] :=
  (loadSystemRows_degraded_order defaultConfig (fun _ => FetchOutcome.failure)
    (by decide) rfl).1

/-! ### C7 -/

theorem loadedBranch_ne_dash (llm : Json) :
    (if optTruthy (jsProp llm "loaded") then "loaded" else "unloaded") ≠ "-" := by
  cases h : optTruthy (jsProp llm "loaded") <;> simp [h]

/-- The llm service payload of the C7 counterexample: reachable, not ok,
with the (present, truthy) model identifier `"-"`. -/
def c7Llm : Json := Json.obj [("ok", Json.bool false), ("model_id", Json.str "-")]

def c7Ecosystem : Json := Json.obj [("services", Json.obj [("llm", c7Llm)])]

def c7Env : String → FetchOutcome := fun u =>
  if u = ecoUrl defaultConfig then FetchOutcome.response 200 (some c7Ecosystem)
  else FetchOutcome.failure

/-- C7 counterexample: with `services.llm.ok = false` and
`model_id = "-"`, the mlx-llm row shows docs `"-"` even though `model_id`
is present and truthy — refuting that docs is `"-"` only if `model_id` is
absent and `loaded` falsy. -/
theorem llmRow_docs_dash_cex :
    ((loadSystemRows defaultConfig c7Env).1.map (fun r => (r.resource, r.status, r.docs))).head? =
      some ("mlx-llm", "down", "-") ∧
    jsProp c7Llm "model_id" = some (Json.str "-") ∧
    optTruthy (jsProp c7Llm "model_id") = true :=
  ⟨rfl, rfl, rfl⟩

/-- C7 (amended): when the ecosystem payload arrives with a truthy
`services` whose `llm` entry is truthy but has a falsy `ok`, the first
system row is the mlx-llm row with status `down` and docs following the
documented precedence — trimmed model id when `model_id` is truthy, else
`loaded`/`unloaded` by the truthiness of `loaded`; consequently docs can
equal `"-"` only when the model identifier is itself the string `"-"`,
never from the placeholder path. -/
theorem llmRow_status_docs (cfg : Config) (env : String → FetchOutcome) (eco llm : Json)
    (hbase : cfg.llmBaseUrl ≠ "")
    (heco : fetchJson (env (ecoUrl cfg)) = { ok := true, data := some eco })
    (hsv : optTruthy (jsProp eco "services") = true)
    (hllm : jsTruthyOrNone (jsPropOpt (jsProp eco "services") "llm") = some llm)
    (hok : optTruthy (jsProp llm "ok") = false) :
    ((loadSystemRows cfg env).1.map (fun r => (r.resource, r.status, r.docs))).head? =
      some ("mlx-llm", "down", llmDocsOf llm) ∧
    (llmDocsOf llm = "-" → jsProp llm "model_id" = some (Json.str "-")) := by
  constructor
  · have htr : eco.truthy = true := by
      cases eco <;> simp [jsProp, optTruthy, Json.truthy] at hsv ⊢
    have hot : ∀ j : Json, optTruthy (some j) = j.truthy := fun _ => rfl
    have hrows : (loadSystemRows cfg env).1 =
        ecosystemServiceRows cfg eco ++
          (["anthology", "blog", "projects"].map (collectionRow cfg env (some eco))).map Prod.fst := by
      simp [loadSystemRows, hbase, heco, htr, hot, jsPropOpt_some, hsv]
    rw [hrows]
    simp [ecosystemServiceRows, hllm, addServiceRow, hok]
  · intro hdash
    rcases hm : jsProp llm "model_id" with _ | v
    · simp only [llmDocsOf, hm] at hdash
      exact absurd hdash (loadedBranch_ne_dash llm)
    · cases v with
      | str m =>
        simp only [llmDocsOf, hm] at hdash
        by_cases hme : m = ""
        · simp only [hme, ne_eq, not_true_eq_false, if_false, ite_not] at hdash
          exact absurd hdash (loadedBranch_ne_dash llm)
        · simp only [ne_eq, hme, not_false_eq_true, if_true, ite_not] at hdash
          by_cases hl : m.length ≤ 52
          · have hid : trimModelId (some m) = m := by simp [trimModelId, hme, hl]
            rw [hid] at hdash
            rw [hdash]
          · exfalso
            have h45 := trimModelId_length_long m (by omega)
            rw [hdash] at h45
            have : ("-" : String).length = 1 := rfl
            omega
      | null =>
        simp only [llmDocsOf, hm] at hdash
        exact absurd hdash (loadedBranch_ne_dash llm)
      | bool x =>
        simp only [llmDocsOf, hm] at hdash
        exact absurd hdash (loadedBranch_ne_dash llm)
      | num x =>
        simp only [llmDocsOf, hm] at hdash
        exact absurd hdash (loadedBranch_ne_dash llm)
      | arr x =>
        simp only [llmDocsOf, hm] at hdash
        exact absurd hdash (loadedBranch_ne_dash llm)
      | obj x =>
        simp only [llmDocsOf, hm] at hdash
        exact absurd hdash (loadedBranch_ne_dash llm)

/-- Witness for C7: the amended row statement evaluated on the
counterexample environment. -/
theorem llmRow_status_docs_witness :
    ((loadSystemRows defaultConfig c7Env).1.map (fun r => (r.resource, r.status, r.docs))).head? =
      some ("mlx-llm", "down", llmDocsOf c7Llm) :=
  (llmRow_status_docs defaultConfig c7Env c7Ecosystem c7Llm (by decide) rfl rfl rfl rfl).1
